import Mathlib

/-!
Verification development for the GaussianPlume repository.

The Python sources are shallowly embedded:
* floating-point numbers are modelled as real numbers (`ℝ`); the NaN value
  produced by the masking logic in `calculate_sigma` is modelled by the
  two-constructor type `RF` (`nan` or a real value);
* numpy arrays are modelled as `List`s; in-place mutation of a caller's
  array is modelled by returning the post-call contents of that array
  alongside the function result;
* Python exceptions are modelled with `Except PyErr`;
* the module `GPConstants`, which is imported by the sources but is not
  part of them, is modelled (from the spec) as a record of real constants
  that every embedded function receives as a parameter.
-/

namespace GaussianPlume

/-- Modelled from the spec: the module `GPConstants` is imported by
`GPFunctions.py` but its source is not part of the repository.  The spec
describes its contents as fixed conversion constants (`deg2rad`, the two
meters-per-radian factors, the liter-per-mole-of-air constant) and the two
fixed exponents `sigma_ca`, `sigma_cb`.  They are abstracted as a record of
reals, passed to every embedded function that reads the module. -/
structure GPConstants where
  deg2rad : ℝ
  latlon2dxdy_lat_conversion_factor : ℝ
  latlon2dxdy_lon_conversion_factor : ℝ
  liter_per_mole_air : ℝ
  sigma_ca : ℝ
  sigma_cb : ℝ

/-- Python exceptions raised by the embedded code. -/
inductive PyErr where
  | indexError (msg : String)
  | valueError (msg : String)
  | typeError (msg : String)
deriving DecidableEq, Repr

instance exceptDecEq {ε α : Type} [DecidableEq ε] [DecidableEq α] : DecidableEq (Except ε α)
  | .ok a, .ok b =>
      if h : a = b then .isTrue (congrArg Except.ok h)
      else .isFalse (fun hc => h (Except.ok.inj hc))
  | .error a, .error b =>
      if h : a = b then .isTrue (congrArg Except.error h)
      else .isFalse (fun hc => h (Except.error.inj hc))
  | .ok _, .error _ => .isFalse (fun hc => Except.noConfusion hc)
  | .error _, .ok _ => .isFalse (fun hc => Except.noConfusion hc)

/-- Embeds `GPFunctions.py` line 352: `stability_classes = numpy.array(["A", "B", "C", "D", "E", "F"])`. -/
def stability_classes : List String := ["A", "B", "C", "D", "E", "F"]

/-- Python `str.upper()`, modelled character-wise on the string's data
(the inputs of interest are basic latin letters). -/
def str_upper (s : String) : String := ⟨s.data.map Char.toUpper⟩

/-- Python `str.lower()`, modelled character-wise on the string's data. -/
def str_lower (s : String) : String := ⟨s.data.map Char.toLower⟩

/-- Embeds `GPFunctions.stability_index2class`, scalar (`type(stability_index) == int`)
branch, lines 354-360: raise `IndexError` when the index is not in
`range(6)`, otherwise index into `stability_classes`. -/
def stability_index2class (stability_index : ℤ) : Except PyErr String :=
  if 0 ≤ stability_index ∧ stability_index < 6 then
    .ok (stability_classes.getD stability_index.toNat "")
  else
    .error (.indexError ("stability_index is " ++ toString stability_index ++
      ", which is out of range, it has to be 0, 1, 2, 3, 4, or 5."))

/-- Embeds `GPFunctions.stability_index2class`, array branch, lines 357-360:
raise `IndexError` when any entry is `< 0` or `> 5`, otherwise fancy-index
`stability_classes` by the whole array. -/
def stability_index2class_array (stability_index : List ℤ) : Except PyErr (List String) :=
  if stability_index.any (fun i => i < 0) ∨ stability_index.any (fun i => i > 5) then
    .error (.indexError "stability_index is out of range, it has to be 0, 1, 2, 3, 4, or 5.")
  else
    .ok (stability_index.map (fun i => stability_classes.getD i.toNat ""))

/-- Embeds `GPFunctions.stability_class2index`, scalar (`type(stability_class) == str`)
branch, lines 384-387: `idx = numpy.where(stability_class.upper() == stability_classes)[0]`
(a numpy array with the positions where the upper-cased input equals a class
letter, hence of length 0 or 1), raising `ValueError` when it is empty.
Note the scalar branch returns this length-1 array, not a scalar. -/
def stability_class2index (stability_class : String) : Except PyErr (List ℤ) :=
  let idx := (List.range stability_classes.length).filter
    (fun i => stability_classes.getD i "" = str_upper stability_class)
  if idx.length = 0 then
    .error (.valueError ("stability_class " ++ stability_class ++ " does not exist"))
  else
    .ok (idx.map (fun i => (i : ℤ)))

/-- The per-entry effect of the loop in `GPFunctions.stability_class2index`
lines 399-408: `idx` starts at `-1` and position `i` is set to `sc_i`
whenever entry `i` equals class `sc_i` in upper or lower case.  Each entry
matches at most one class, so the loop is element-wise: an entry maps to its
class index, or stays `-1` when it matches no class in either case. -/
def class_entry_index (s : String) : ℤ :=
  match (List.range stability_classes.length).find?
      (fun i => s = stability_classes.getD i "" ∨ s = str_lower (stability_classes.getD i "")) with
  | some i => (i : ℤ)
  | none => -1

/-- The entries of the input that the loop left at `-1` (lines 410-411 of
`GPFunctions.py`): the invalid entries, in input order. -/
def invalid_entries (l : List String) : List String :=
  l.filter (fun s => class_entry_index s = -1)

/-- The `ValueError` message built in `GPFunctions.stability_class2index`
lines 413-419: when there are fewer than 3 invalid entries the message
appends each offending value, otherwise it reports only their count. -/
def class2index_invalid_message (invalid : List String) : String :=
  if invalid.length < 3 then
    invalid.foldl (fun acc v => acc ++ " " ++ v) "Invalid inputs for stability_class:"
  else
    toString invalid.length ++ " invalid inputs for stability_class"

/-- Embeds `GPFunctions.stability_class2index`, array branch, lines 388-421. -/
def stability_class2index_array (stability_class : List String) : Except PyErr (List ℤ) :=
  let idx := stability_class.map class_entry_index
  if idx.any (fun i => i = -1) then
    .error (.valueError (class2index_invalid_message (invalid_entries stability_class)))
  else
    .ok idx

/-- The twelve scalar inputs accepted by `stability_class2index`: the class
letters `{A..F}` in either case. -/
def valid_class_letters : List String :=
  ["A", "B", "C", "D", "E", "F", "a", "b", "c", "d", "e", "f"]

/-- Embeds `GPFunctions.latlon2dlatdlon` (lines 61-69), scalar case.  The over-distance
check only emits a warning and does not alter the returned values, so it is
not part of the value-level embedding. -/
noncomputable def latlon2dlatdlon (gpc : GPConstants) (lat lon latR lonR : ℝ) : ℝ × ℝ :=
  (Real.sin ((lat - latR) * gpc.deg2rad) * gpc.latlon2dxdy_lat_conversion_factor,
   Real.cos (lat * gpc.deg2rad) * Real.sin ((lon - lonR) * gpc.deg2rad) *
     gpc.latlon2dxdy_lon_conversion_factor)

/-- Element-wise application of a 4-argument function to 4 equal-length lists,
modelling numpy broadcasting over arrays. -/
def map4 {α : Type} (f : ℝ → ℝ → ℝ → ℝ → α) : List ℝ → List ℝ → List ℝ → List ℝ → List α
  | a :: as, b :: bs, c :: cs, d :: ds => f a b c d :: map4 f as bs cs ds
  | _, _, _, _ => []

/-- Element-wise application of a 5-argument function to 5 equal-length lists. -/
def map5 {α : Type} (f : ℝ → ℝ → ℝ → ℝ → ℝ → α) :
    List ℝ → List ℝ → List ℝ → List ℝ → List ℝ → List α
  | a :: as, b :: bs, c :: cs, d :: ds, e :: es => f a b c d e :: map5 f as bs cs ds es
  | _, _, _, _, _ => []

/-- Embeds `GPFunctions.latlon2dlatdlon`, array case: numpy evaluates the same two
formulas element-wise over equal-length arrays. -/
noncomputable def latlon2dlatdlon_list (gpc : GPConstants) (lat lon latR lonR : List ℝ) :
    List ℝ × List ℝ :=
  let l := map4 (latlon2dlatdlon gpc) lat lon latR lonR
  (l.map Prod.fst, l.map Prod.snd)

/-- Definition following the spec's words for `geodeticOffset`:
`dNorth = sin((lat-latRef)*deg2rad) * R_lat` and
`dEast = cos(lat*deg2rad) * sin((lon-lonRef)*deg2rad) * R_lon`. -/
noncomputable def geodeticOffset_spec (deg2rad Rlat Rlon lat lon latRef lonRef : ℝ) : ℝ × ℝ :=
  (Real.sin ((lat - latRef) * deg2rad) * Rlat,
   Real.cos (lat * deg2rad) * Real.sin ((lon - lonRef) * deg2rad) * Rlon)

/-- Embeds `GPFunctions.dlatdlon2dxdy` (lines 109-110), scalar case; the distance
warning does not alter the returned values. -/
noncomputable def dlatdlon2dxdy (gpc : GPConstants) (dlatS dlonS dlatM dlonM wd : ℝ) : ℝ × ℝ :=
  ((dlatS - dlatM) * Real.cos (wd * gpc.deg2rad) + (dlonS - dlonM) * Real.sin (wd * gpc.deg2rad),
   (dlatS - dlatM) * Real.sin (wd * gpc.deg2rad) - (dlonS - dlonM) * Real.cos (wd * gpc.deg2rad))

/-- Embeds `GPFunctions.dlatdlon2dxdy`, array case (element-wise). -/
noncomputable def dlatdlon2dxdy_list (gpc : GPConstants) (dlatS dlonS dlatM dlonM wd : List ℝ) :
    List ℝ × List ℝ :=
  let l := map5 (dlatdlon2dxdy gpc) dlatS dlonS dlatM dlonM wd
  (l.map Prod.fst, l.map Prod.snd)

/-- Embeds `GPFunctions.calculate_concentration` (lines 270-283): the Gaussian plume
concentration with the ground and mixing-layer image-source reflection
terms.  Division by a zero `sigma` is modelled by real division (the code
performs no domain check; in Python the degeneracy propagates as inf/NaN). -/
noncomputable def calculate_concentration (gpc : GPConstants)
    (qs wind_speed sigma_y sigma_z dy zr hs hm molecular_mass : ℝ) : ℝ :=
  let A := qs / (2 * Real.pi * wind_speed * sigma_y * sigma_z)
  let B := Real.exp (-dy ^ 2 / (2 * sigma_y ^ 2))
  let C := 2 * sigma_z ^ 2
  let D := Real.exp (-(zr - hs) ^ 2 / C)
  let E := Real.exp (-(zr + hs) ^ 2 / C)
  let F := Real.exp (-(zr - (2 * hm - hs)) ^ 2 / C)
  gpc.liter_per_mole_air * 1e6 * A * B * (D + E + F) / molecular_mass

/-- Definition following the spec's words for `concentration`:
`conc = K * A * B * (D+E+F) / molarMass` with
`A = Qs/(2 pi windSpeed sigma_y sigma_z)`, `B = exp(-dy^2/(2 sigma_y^2))`,
`D = exp(-(Zr-Hs)^2/(2 sigma_z^2))`, `E = exp(-(Zr+Hs)^2/(2 sigma_z^2))`,
`F = exp(-(Zr-(2 Hm-Hs))^2/(2 sigma_z^2))`. -/
noncomputable def concentration_spec (K qs wind_speed sigma_y sigma_z dy zr hs hm molarMass : ℝ) :
    ℝ :=
  let A := qs / (2 * Real.pi * wind_speed * sigma_y * sigma_z)
  let B := Real.exp (-dy ^ 2 / (2 * sigma_y ^ 2))
  let D := Real.exp (-(zr - hs) ^ 2 / (2 * sigma_z ^ 2))
  let E := Real.exp (-(zr + hs) ^ 2 / (2 * sigma_z ^ 2))
  let F := Real.exp (-(zr - (2 * hm - hs)) ^ 2 / (2 * sigma_z ^ 2))
  K * A * B * (D + E + F) / molarMass

/-- Embeds `GPFunctions.calculate_sigma` (lines 217-235), scalar case.  For a scalar
`dx < 0`, line 219 executes `dx[idx_nan] = numpy.nan` on a Python float,
which raises `TypeError`; otherwise the scalar `tc` is clamped at
`tc_minimum` (lines 226-227) and the two power-law formulas of lines
232-233 are evaluated, with `ca`, `cb` defaulting to the `GPConstants`
values when the caller does not supply them (lines 229-230). -/
noncomputable def calculate_sigma (gpc : GPConstants) (dx z0 tc : ℝ)
    (dispersion_constants : Fin 6 → Fin 4 → ℝ) (stability_index : Fin 6)
    (tc_minimum offset_sigma_z : ℝ) (ca cb : Option ℝ) : Except PyErr (ℝ × ℝ) :=
  if dx < 0 then
    .error (.typeError "float object does not support item assignment")
  else
    let tc1 := if tc < tc_minimum then tc_minimum else tc
    let cav := ca.getD gpc.sigma_ca
    let cbv := cb.getD gpc.sigma_cb
    .ok (dispersion_constants stability_index 0 * dx ^ dispersion_constants stability_index 1 *
           z0 ^ (0.2 : ℝ) * tc1 ^ (0.35 : ℝ),
         dispersion_constants stability_index 2 * dx ^ dispersion_constants stability_index 3 *
           (10 * z0) ^ (cav * dx ^ cbv) + offset_sigma_z)

/-- Definition following the spec's words for `spread`:
`sigma_y = C[i,0] * dx^C[i,1] * z0^0.2 * tc^0.35`,
`sigma_z = C[i,2] * dx^C[i,3] * (10 z0)^(ca * dx^cb) + offsetSigmaZ`,
with `tc` below `tcMinimum` clamped up to `tcMinimum` and `ca`, `cb`
defaulting to the fixed constants when not supplied. -/
noncomputable def spread_spec (gpc : GPConstants) (dx z0 tc : ℝ)
    (dc : Fin 6 → Fin 4 → ℝ) (i : Fin 6) (tc_minimum offset_sigma_z : ℝ)
    (ca cb : Option ℝ) : ℝ × ℝ :=
  let tcc := max tc tc_minimum
  let cav := ca.getD gpc.sigma_ca
  let cbv := cb.getD gpc.sigma_cb
  (dc i 0 * dx ^ dc i 1 * z0 ^ (0.2 : ℝ) * tcc ^ (0.35 : ℝ),
   dc i 2 * dx ^ dc i 3 * (10 * z0) ^ (cav * dx ^ cbv) + offset_sigma_z)

/-- A numpy float64 cell: either NaN or a real value.  Only the NaN-ness
produced by the masking logic in `calculate_sigma` matters to the claims, so
rounding is not modelled. -/
inductive RF where
  | nan : RF
  | val (x : ℝ) : RF

namespace RF

/-- numpy `a < b`: any comparison against NaN is `False`. -/
def lt : RF → RF → Prop
  | val a, val b => a < b
  | _, _ => False

/-- numpy addition: NaN propagates. -/
noncomputable def add : RF → RF → RF
  | val a, val b => val (a + b)
  | _, _ => nan

/-- numpy multiplication: NaN propagates (also through a zero factor). -/
noncomputable def mul : RF → RF → RF
  | val a, val b => val (a * b)
  | _, _ => nan

/-- numpy `a ** b`: `nan ** 0 = 1` and `1 ** nan = 1`, otherwise NaN
propagates; on values it is modelled by the real power `Real.rpow`. -/
noncomputable def rpow : RF → RF → RF
  | val a, val b => val (a ^ b)
  | nan, val b => if b = 0 then val 1 else nan
  | val a, nan => if a = 1 then val 1 else nan
  | nan, nan => nan

/-- An entry the mask fires on: a real value below zero (NaN compares false). -/
def isNeg : RF → Prop
  | val a => a < 0
  | nan => False

noncomputable instance : DecidablePred isNeg := fun v =>
  match v with
  | val a => inferInstanceAs (Decidable (a < 0))
  | nan => inferInstanceAs (Decidable False)

noncomputable instance (a b : RF) : Decidable (lt a b) :=
  match a, b with
  | val a, val b => inferInstanceAs (Decidable (a < b))
  | val _, nan => inferInstanceAs (Decidable False)
  | nan, val _ => inferInstanceAs (Decidable False)
  | nan, nan => inferInstanceAs (Decidable False)

end RF

/-- Lines 217-221 of `GPFunctions.calculate_sigma`, array case, effect on the
caller's `dx` array: `dx[idx_nan] = numpy.nan` where `idx_nan` are the
positions with `dx < 0` (NaN entries compare false, hence stay). -/
noncomputable def mask_dx (dx : List RF) : List RF :=
  dx.map (fun d => if RF.isNeg d then .nan else d)

/-- Lines 220-221, effect on the caller's `tc` array when it is an ndarray:
`tc[idx_nan] = numpy.nan` at the positions where `dx < 0`. -/
noncomputable def mask_tc (dx tc : List RF) : List RF :=
  List.zipWith (fun d t => if RF.isNeg d then .nan else t) dx tc

/-- Lines 223-225: `tc[tc < tc_minimum] = tc_minimum`, element-wise on the
caller's `tc` array (NaN entries compare false, hence stay NaN). -/
noncomputable def clamp_tc (tc : List RF) (tc_minimum : ℝ) : List RF :=
  tc.map (fun t => if RF.lt t (.val tc_minimum) then .val tc_minimum else t)

/-- Line 232's `sigma_y` formula, element-wise with numpy NaN semantics. -/
noncomputable def sigma_y_entry (dc : Fin 6 → Fin 4 → ℝ) (i : Fin 6) (z0 : ℝ) (d t : RF) : RF :=
  (((RF.val (dc i 0)).mul (d.rpow (.val (dc i 1)))).mul
      (.val (z0 ^ (0.2 : ℝ)))).mul (t.rpow (.val (0.35 : ℝ)))

/-- Line 233's `sigma_z` formula, element-wise with numpy NaN semantics. -/
noncomputable def sigma_z_entry (gpc : GPConstants) (dc : Fin 6 → Fin 4 → ℝ) (i : Fin 6)
    (z0 : ℝ) (ca cb : Option ℝ) (offset_sigma_z : ℝ) (d : RF) : RF :=
  let cav := ca.getD gpc.sigma_ca
  let cbv := cb.getD gpc.sigma_cb
  (((RF.val (dc i 2)).mul (d.rpow (.val (dc i 3)))).mul
      ((RF.val (10 * z0)).rpow ((RF.val cav).mul (d.rpow (.val cbv))))).add
    (.val offset_sigma_z)

/-- Embeds `GPFunctions.calculate_sigma` (lines 217-235) with ndarray `dx` and
ndarray `tc`.  The assignments `dx[idx_nan] = numpy.nan`,
`tc[idx_nan] = numpy.nan` and `tc[idx] = tc_minimum` mutate the arrays the
caller passed in; the first two components of the result model the contents
of the caller's `dx` and `tc` buffers after the call, the last two are the
returned `sigma_y` and `sigma_z` arrays.  No exception is raised on this
path. -/
noncomputable def calculate_sigma_array (gpc : GPConstants) (dx : List RF) (z0 : ℝ)
    (tc : List RF) (dc : Fin 6 → Fin 4 → ℝ) (i : Fin 6)
    (tc_minimum offset_sigma_z : ℝ) (ca cb : Option ℝ) :
    List RF × List RF × List RF × List RF :=
  let dx1 := mask_dx dx
  let tc1 := mask_tc dx tc
  let tc2 := clamp_tc tc1 tc_minimum
  (dx1, tc2,
   List.zipWith (sigma_y_entry dc i z0) dx1 tc2,
   dx1.map (sigma_z_entry gpc dc i z0 ca cb offset_sigma_z))

/-- Embeds `GPMolecule.Molecule` as used by `GPSource`: only the molecular mass is
read by the embedded methods. -/
structure Molecule where
  name : String
  molecular_mass : ℝ

/-- Embeds `GPSource.Source`: the fields involved in `calculate_dxdy` and
`calculate_concentration`.  `__init__` defaults every numeric field to
`None` (`kwargs.get(..., None)`), modelled by `Option ℝ`. -/
structure Source where
  molecule : Molecule
  dx : Option ℝ
  dy : Option ℝ
  dlatS : Option ℝ
  dlonS : Option ℝ
  dlatM : Option ℝ
  dlonM : Option ℝ
  latS : Option ℝ
  lonS : Option ℝ
  latR : Option ℝ
  lonR : Option ℝ
  latM : Option ℝ
  lonM : Option ℝ
  wind_direction : Option ℝ
  wind_speed : Option ℝ
  qs : Option ℝ
  hs : Option ℝ
  hm : Option ℝ
  z0 : Option ℝ
  zr : Option ℝ
  sigma_y : Option ℝ
  sigma_z : Option ℝ
  tc : Option ℝ

/-- The error string built in `GPSource.calculate_dxdy` lines 223-236 when
the source-side location data is incomplete. -/
def missing_source_location_message (s : Source) : String :=
  let m := "GPSource.calculate_dxdy(): no location data for: "
  let m := if s.dlatS.isNone then m ++ " dlatS, " else m
  let m := if s.dlonS.isNone then m ++ " dlonS, " else m
  let m := if s.latS.isNone then m ++ " latS, " else m
  let m := if s.lonS.isNone then m ++ " lonS, " else m
  let m := if s.latR.isNone then m ++ " latR, " else m
  let m := if s.lonR.isNone then m ++ " lonR, " else m
  m

/-- The error string built in `GPSource.calculate_dxdy` lines 242-255 when
the measurement-side location data is incomplete. -/
def missing_measurement_location_message (s : Source) : String :=
  let m := "GPSource.calculate_dxdy(): no location data for: "
  let m := if s.dlatM.isNone then m ++ " dlatM, " else m
  let m := if s.dlonM.isNone then m ++ " dlonM, " else m
  let m := if s.latM.isNone then m ++ " latM, " else m
  let m := if s.lonM.isNone then m ++ " lonM, " else m
  let m := if s.latR.isNone then m ++ " latR, " else m
  let m := if s.lonR.isNone then m ++ " lonR, " else m
  m

/-- Embeds `GPSource.Source.calculate_dxdy` (lines 196-260).  When both `dx` and
`dy` are already set the body is `pass` (line 214-215) and the object is
untouched; otherwise `dlatS/dlonS` and `dlatM/dlonM` are derived from the
raw coordinates when absent (raising `ValueError` when the needed inputs
are missing), `wind_direction` is required, and `dx`, `dy` are stored. -/
noncomputable def Source.calculate_dxdy (gpc : GPConstants) (s : Source) :
    Except PyErr Source :=
  if s.dx.isSome && s.dy.isSome then .ok s
  else do
    let dS ←
      if s.dlatS.isNone || s.dlonS.isNone then
        match s.latS, s.lonS, s.latR, s.lonR with
        | some la, some lo, some lar, some lor =>
            Except.ok (latlon2dlatdlon gpc la lo lar lor)
        | _, _, _, _ => Except.error (.valueError (missing_source_location_message s))
      else Except.ok (s.dlatS.getD 0, s.dlonS.getD 0)
    let dM ←
      if s.dlatM.isNone || s.dlonM.isNone then
        match s.latM, s.lonM, s.latR, s.lonR with
        | some la, some lo, some lar, some lor =>
            Except.ok (latlon2dlatdlon gpc la lo lar lor)
        | _, _, _, _ => Except.error (.valueError (missing_measurement_location_message s))
      else Except.ok (s.dlatM.getD 0, s.dlonM.getD 0)
    match s.wind_direction with
    | none => Except.error (.valueError "GPSource.calculate_dxdy(): no data for wind_direction")
    | some wd =>
        let dxdy := dlatdlon2dxdy gpc dS.1 dS.2 dM.1 dM.2 wd
        Except.ok { s with dlatS := some dS.1, dlonS := some dS.2,
                           dlatM := some dM.1, dlonM := some dM.2,
                           dx := some dxdy.1, dy := some dxdy.2 }

/-- Embeds `GPSource.Source.calculate_concentration` (lines 290-297): the method
calls `GPF.calculate_concentration` with the stored fields as an expression
statement, discards its value, assigns nothing and falls off the end, so
Python returns `None`.  The result pairs the post-call object with the
returned value; arithmetic on an unset (`None`) field raises `TypeError`. -/
noncomputable def Source.calculate_concentration (gpc : GPConstants) (s : Source) :
    Except PyErr (Source × Option ℝ) :=
  match s.qs, s.wind_speed, s.sigma_y, s.sigma_z, s.dy, s.zr, s.hs, s.hm with
  | some qs, some ws, some sy, some sz, some dy, some zr, some hs, some hm =>
      let _conc := GaussianPlume.calculate_concentration gpc qs ws sy sz dy zr hs hm
        s.molecule.molecular_mass
      .ok (s, none)
  | _, _, _, _, _, _, _, _ =>
      .error (.typeError "unsupported operand type: NoneType")

/-- The columns of `Plume.df` that `calculate_concentration_prepare_dxdy`
reads or inserts; an absent column is `none`. -/
structure DataFrame where
  dx : Option (List ℝ)
  dy : Option (List ℝ)
  latS : Option (List ℝ)
  lonS : Option (List ℝ)
  latM : Option (List ℝ)
  lonM : Option (List ℝ)
  latR : Option (List ℝ)
  lonR : Option (List ℝ)
  wind_direction : Option (List ℝ)

/-- Embeds `GPPlumeModel.Plume.calculate_concentration_prepare_dxdy` (lines
209-233): when the `dx` and `dy` columns both exist the body does nothing;
otherwise they are computed from the coordinate columns and inserted, and
when those are absent too a bare `ValueError` (empty message, the
explanation only being printed) is raised. -/
noncomputable def Plume.calculate_concentration_prepare_dxdy (gpc : GPConstants)
    (df : DataFrame) : Except PyErr DataFrame :=
  if !df.dx.isSome || !df.dy.isSome then
    match df.latS, df.lonS, df.latM, df.lonM, df.latR, df.lonR, df.wind_direction with
    | some latS, some lonS, some latM, some lonM, some latR, some lonR, some wd =>
        let dMpair := latlon2dlatdlon_list gpc latM lonM latR lonR
        let dSpair := latlon2dlatdlon_list gpc latS lonS latR lonR
        let dxdy := dlatdlon2dxdy_list gpc dSpair.1 dSpair.2 dMpair.1 dMpair.2 wd
        .ok { df with dx := some dxdy.1, dy := some dxdy.2 }
    | _, _, _, _, _, _, _ => .error (.valueError "")
  else .ok df

/-- CPython argument binding for a bound-method call, restricted to what the
`Plume.calculate_concentration` call sites need: `params` are the declared
parameters after `self` (each with a default), `positional` is the number of
positional arguments after the implicit `self`, `keywords` the keyword
argument names.  A keyword naming a parameter already filled positionally
raises `TypeError: got multiple values for argument`. -/
def bindCall (params : List String) (positional : ℕ) (keywords : List String) :
    Except PyErr Unit :=
  if params.length < positional then
    .error (.typeError "too many positional arguments")
  else if keywords.any (fun k => (params.take positional).contains k) then
    .error (.typeError "got multiple values for argument")
  else .ok ()

/-- Embeds `GPPlumeModel.Plume`: only `df` is reachable in the embedded
`calculate_concentration` chain (the later stages fail at argument binding
before their bodies run). -/
structure Plume where
  df : DataFrame

/-- Embeds `GPPlumeModel.Plume.calculate_concentration` (lines 310-320): after the
`prepare_dxdy` stage, lines 318-320 invoke the remaining prepare stages as
`self.calculate_concentration_prepare_tc(self, verbose = verbose)` (and
likewise for the dispersion-constants and molecular-properties stages): the
explicit `self` binds the single `verbose` parameter positionally and the
`verbose` keyword then collides, so each of these calls raises `TypeError`
before its body runs.  The result models the final `df` on (unreachable)
normal completion. -/
noncomputable def Plume.calculate_concentration (gpc : GPConstants) (p : Plume) :
    Except PyErr DataFrame := do
  let df ← Plume.calculate_concentration_prepare_dxdy gpc p.df
  _ ← bindCall ["verbose"] 1 ["verbose"]
  _ ← bindCall ["verbose"] 1 ["verbose"]
  _ ← bindCall ["verbose"] 1 ["verbose"]
  .ok df

section Helpers

/-- Concrete constants record used by witnesses. -/
def gpc0 : GPConstants := ⟨0, 0, 0, 0, 0, 0⟩

/-- Concrete dispersion-coefficient table used by witnesses. -/
def dc0 : Fin 6 → Fin 4 → ℝ := fun _ _ => 1

/-- Concrete `DataFrame` with `dx` and `dy` columns present, used by witnesses. -/
def df0 : DataFrame :=
  { dx := some [1], dy := some [2], latS := none, lonS := none, latM := none,
    lonM := none, latR := none, lonR := none, wind_direction := none }

/-- Concrete `Plume` used by witnesses. -/
def plume0 : Plume := ⟨df0⟩

/-- Concrete molecule used by witnesses. -/
def mol0 : Molecule := ⟨"ch4", 16⟩

/-- Concrete `Source` with `dx` and `dy` set, used by witnesses. -/
def source0 : Source :=
  { molecule := mol0, dx := some 3, dy := some 4, dlatS := none, dlonS := none,
    dlatM := none, dlonM := none, latS := none, lonS := none, latR := none,
    lonR := none, latM := none, lonM := none, wind_direction := none,
    wind_speed := none, qs := none, hs := none, hm := none, z0 := none,
    zr := none, sigma_y := none, sigma_z := none, tc := none }

/-- Concrete `Source` with every field of the concentration formula set, used
by witnesses. -/
def source1 : Source :=
  { molecule := mol0, dx := some 3, dy := some 4, dlatS := none, dlonS := none,
    dlatM := none, dlonM := none, latS := none, lonS := none, latR := none,
    lonR := none, latM := none, lonM := none, wind_direction := none,
    wind_speed := some 5, qs := some 1, hs := some 2, hm := some 500, z0 := some 1,
    zr := some 3, sigma_y := some 10, sigma_z := some 8, tc := none }

/-- Concrete `dx` array with one negative entry, used by witnesses. -/
def dxw : List RF := [RF.val (-1), RF.val 1]

/-- Concrete `tc` array below the clamp minimum, used by witnesses. -/
def tcw : List RF := [RF.val 0, RF.val 0]

end Helpers

/-- Index lemma for `map4`. -/
theorem map4_getElem? {α : Type} (f : ℝ → ℝ → ℝ → ℝ → α) (as bs cs ds : List ℝ)
    (j : ℕ) (h1 : j < as.length) (h2 : j < bs.length) (h3 : j < cs.length)
    (h4 : j < ds.length) : (map4 f as bs cs ds)[j]? = some (f as[j] bs[j] cs[j] ds[j]) := by
  induction as generalizing bs cs ds j with
  | nil => simp at h1
  | cons a as ih =>
    cases bs with
    | nil => simp at h2
    | cons b bs =>
      cases cs with
      | nil => simp at h3
      | cons c cs =>
        cases ds with
        | nil => simp at h4
        | cons d ds =>
          cases j with
          | zero => simp [map4]
          | succ j =>
            simp only [map4, List.getElem?_cons_succ, List.getElem_cons_succ]
            exact ih bs cs ds j (by simpa using h1) (by simpa using h2)
              (by simpa using h3) (by simpa using h4)

/-- Index lemma for `List.zipWith`. -/
theorem zipWith_getElem? {α β γ : Type} (f : α → β → γ) (as : List α) (bs : List β)
    (j : ℕ) (h1 : j < as.length) (h2 : j < bs.length) :
    (List.zipWith f as bs)[j]? = some (f as[j] bs[j]) := by
  induction as generalizing bs j with
  | nil => simp at h1
  | cons a as ih =>
    cases bs with
    | nil => simp at h2
    | cons b bs =>
      cases j with
      | zero => simp
      | succ j =>
        simp only [List.zipWith_cons_cons, List.getElem?_cons_succ, List.getElem_cons_succ]
        exact ih bs j (by simpa using h1) (by simpa using h2)

/-- C1: `calculate_concentration` returns `K * A * B * (D + E + F) / molarMass`
with `A`, `B`, `D`, `E`, `F` the Gaussian factors of the spec and
`K = liter_per_mole_air * 10^6`, and the result is symmetric in `dy`.  The
statement quantifies over all inputs, including `sigma_y = 0` and
`sigma_z = 0`: the function applies the same formula there with no domain
check (the resulting division degeneracy is modelled by real division). -/
theorem gp_c1 : ∀ (gpc : GPConstants) (qs u sy sz dy zr hs hm mm : ℝ),
    calculate_concentration gpc qs u sy sz dy zr hs hm mm =
      concentration_spec (gpc.liter_per_mole_air * 1e6) qs u sy sz dy zr hs hm mm ∧
    calculate_concentration gpc qs u sy sz (-dy) zr hs hm mm =
      calculate_concentration gpc qs u sy sz dy zr hs hm mm := by
  intro gpc qs u sy sz dy zr hs hm mm
  refine ⟨rfl, ?_⟩
  simp only [calculate_concentration, neg_sq]

/-- C2: for nonnegative `dx` (negative scalar `dx` is the error path settled
with C3), `calculate_sigma` returns exactly the two power-law formulas of
the spec with `tc` first clamped up to `tc_minimum`, and omitted `ca`, `cb`
behave as if the `GPConstants` values had been passed. -/
theorem gp_c2 : ∀ (gpc : GPConstants) (dx z0 tc : ℝ) (dc : Fin 6 → Fin 4 → ℝ)
    (i : Fin 6) (tcm off : ℝ) (ca cb : Option ℝ),
    (0 ≤ dx → calculate_sigma gpc dx z0 tc dc i tcm off ca cb =
      .ok (spread_spec gpc dx z0 tc dc i tcm off ca cb)) ∧
    calculate_sigma gpc dx z0 tc dc i tcm off none none =
      calculate_sigma gpc dx z0 tc dc i tcm off (some gpc.sigma_ca) (some gpc.sigma_cb) := by
  intro gpc dx z0 tc dc i tcm off ca cb
  constructor
  · intro hdx
    have hmax : (if tc < tcm then tcm else tc) = max tc tcm := by
      rcases lt_or_le tc tcm with h | h
      · rw [if_pos h, max_eq_right h.le]
      · rw [if_neg (not_lt.mpr h), max_eq_left h]
    simp only [calculate_sigma, spread_spec, if_neg (not_lt.mpr hdx), hmax]
  · rfl

/-- Witness for C2 at concrete inputs. -/
theorem gp_c2_witness :
    calculate_sigma gpc0 1 1 0 dc0 0 0 0 none none =
      .ok (spread_spec gpc0 1 1 0 dc0 0 0 0 none none) :=
  (gp_c2 gpc0 1 1 0 dc0 0 0 0 none none).1 zero_le_one

/-- C6: `latlon2dlatdlon` computes
`dNorth = sin((lat - latR) * deg2rad) * R_lat` and
`dEast = cos(lat * deg2rad) * sin((lon - lonR) * deg2rad) * R_lon`
(scalar, and element-wise on equal-length arrays), and a point taken
relative to itself yields `(0, 0)`. -/
theorem gp_c6 : (∀ (gpc : GPConstants) (lat lon latR lonR : ℝ),
      latlon2dlatdlon gpc lat lon latR lonR =
        geodeticOffset_spec gpc.deg2rad gpc.latlon2dxdy_lat_conversion_factor
          gpc.latlon2dxdy_lon_conversion_factor lat lon latR lonR) ∧
    (∀ (gpc : GPConstants) (lat lon latR lonR : List ℝ) (j : ℕ)
      (h1 : j < lat.length) (h2 : j < lon.length) (h3 : j < latR.length)
      (h4 : j < lonR.length),
      (latlon2dlatdlon_list gpc lat lon latR lonR).1[j]? =
        some (latlon2dlatdlon gpc lat[j] lon[j] latR[j] lonR[j]).1 ∧
      (latlon2dlatdlon_list gpc lat lon latR lonR).2[j]? =
        some (latlon2dlatdlon gpc lat[j] lon[j] latR[j] lonR[j]).2) ∧
    (∀ (gpc : GPConstants) (lat lon : ℝ), latlon2dlatdlon gpc lat lon lat lon = (0, 0)) := by
  refine ⟨fun gpc lat lon latR lonR => rfl, ?_, ?_⟩
  · intro gpc lat lon latR lonR j h1 h2 h3 h4
    constructor
    · simp only [latlon2dlatdlon_list, List.getElem?_map,
        map4_getElem? (latlon2dlatdlon gpc) lat lon latR lonR j h1 h2 h3 h4]
      rfl
    · simp only [latlon2dlatdlon_list, List.getElem?_map,
        map4_getElem? (latlon2dlatdlon gpc) lat lon latR lonR j h1 h2 h3 h4]
      rfl
  · intro gpc lat lon
    simp [latlon2dlatdlon]

/-- Witness for C6 (array part) at a concrete index. -/
theorem gp_c6_witness :
    (latlon2dlatdlon_list gpc0 [1] [2] [3] [4]).1[0]? =
      some (latlon2dlatdlon gpc0 1 2 3 4).1 :=
  ((gp_c6.2.1 gpc0 [1] [2] [3] [4] 0 one_pos one_pos one_pos one_pos).1)

/-- C7: when `dx` and `dy` are already present, recomputing them is a no-op:
`Source.calculate_dxdy` returns the object unchanged (the body is `pass`)
and `Plume.calculate_concentration_prepare_dxdy` returns the `DataFrame`
unchanged. -/
theorem gp_c7 : (∀ (gpc : GPConstants) (s : Source) (a b : ℝ),
      s.dx = some a → s.dy = some b → Source.calculate_dxdy gpc s = .ok s) ∧
    (∀ (gpc : GPConstants) (df : DataFrame) (dxl dyl : List ℝ),
      df.dx = some dxl → df.dy = some dyl →
      Plume.calculate_concentration_prepare_dxdy gpc df = .ok df) := by
  constructor
  · intro gpc s a b ha hb
    simp [Source.calculate_dxdy, ha, hb]
  · intro gpc df dxl dyl ha hb
    simp [Plume.calculate_concentration_prepare_dxdy, ha, hb]

/-- Witness for C7 at concrete objects. -/
theorem gp_c7_witness :
    Source.calculate_dxdy gpc0 source0 = .ok source0 ∧
    Plume.calculate_concentration_prepare_dxdy gpc0 df0 = .ok df0 :=
  ⟨gp_c7.1 gpc0 source0 3 4 rfl rfl, gp_c7.2 gpc0 df0 [1] [2] rfl rfl⟩

/-- C8: whenever the `dx`/`dy` preparation stage succeeds, the
`Plume.calculate_concentration` chain fails at the next stage: lines
318-320 pass `self` as an extra positional argument, so the bound call to
`calculate_concentration_prepare_tc` receives two values for `verbose` and
raises `TypeError` before its body runs. -/
theorem gp_c8 : ∀ (gpc : GPConstants) (p : Plume) (df2 : DataFrame),
    Plume.calculate_concentration_prepare_dxdy gpc p.df = .ok df2 →
    Plume.calculate_concentration gpc p =
      .error (.typeError "got multiple values for argument") := by
  intro gpc p df2 h
  unfold Plume.calculate_concentration
  rw [h]
  rfl

/-- Witness for C8 at a concrete plume whose frame already has `dx`, `dy`. -/
theorem gp_c8_witness :
    Plume.calculate_concentration gpc0 plume0 =
      .error (.typeError "got multiple values for argument") :=
  gp_c8 gpc0 plume0 df0 rfl

/-- C10: `Source.calculate_concentration` evaluates the concentration from
the stored fields, discards the result and returns `None`, with every field
of the object unchanged. -/
theorem gp_c10 : ∀ (gpc : GPConstants) (s : Source) (qs ws sy sz dy zr hs hm : ℝ),
    s.qs = some qs → s.wind_speed = some ws → s.sigma_y = some sy →
    s.sigma_z = some sz → s.dy = some dy → s.zr = some zr →
    s.hs = some hs → s.hm = some hm →
    Source.calculate_concentration gpc s = .ok (s, none) := by
  intro gpc s qs ws sy sz dy zr hs hm h1 h2 h3 h4 h5 h6 h7 h8
  simp [Source.calculate_concentration, h1, h2, h3, h4, h5, h6, h7, h8]

/-- Witness for C10 at a fully populated source. -/
theorem gp_c10_witness :
    Source.calculate_concentration gpc0 source1 = .ok (source1, none) :=
  gp_c10 gpc0 source1 1 5 10 8 4 3 2 500 rfl rfl rfl rfl rfl rfl rfl rfl

/-- Index lemma for `mask_dx`. -/
theorem mask_dx_getElem? (dx : List RF) (j : ℕ) (hj : j < dx.length) :
    (mask_dx dx)[j]? = some (if RF.isNeg dx[j] then RF.nan else dx[j]) := by
  simp only [mask_dx, List.getElem?_map, List.getElem?_eq_getElem hj]
  rfl

/-- Index lemma for `mask_tc`. -/
theorem mask_tc_getElem? (dx tc : List RF) (j : ℕ) (hj : j < dx.length)
    (hj2 : j < tc.length) :
    (mask_tc dx tc)[j]? = some (if RF.isNeg dx[j] then RF.nan else tc[j]) := by
  simp only [mask_tc]
  rw [zipWith_getElem? _ dx tc j hj hj2]

/-- Index lemma for `clamp_tc`. -/
theorem clamp_tc_getElem? (tc : List RF) (m : ℝ) (j : ℕ) (hj : j < tc.length) :
    (clamp_tc tc m)[j]? = some (if RF.lt tc[j] (.val m) then RF.val m else tc[j]) := by
  simp only [clamp_tc, List.getElem?_map, List.getElem?_eq_getElem hj]
  rfl

/-- The contents of the caller's `tc` array after `calculate_sigma_array`:
NaN wherever `dx` was negative, clamped wherever it was below the minimum. -/
theorem tc_out_getElem? (dx tc : List RF) (tcm : ℝ) (j : ℕ) (hj : j < dx.length)
    (hj2 : j < tc.length) :
    (clamp_tc (mask_tc dx tc) tcm)[j]? =
      some (if RF.isNeg dx[j] then RF.nan
            else if RF.lt tc[j] (.val tcm) then RF.val tcm else tc[j]) := by
  have hlen : j < (mask_tc dx tc).length := by
    simp only [mask_tc, List.length_zipWith]
    omega
  have h1 := mask_tc_getElem? dx tc j hj hj2
  rw [List.getElem?_eq_getElem hlen] at h1
  have h2 := Option.some.inj h1
  rw [clamp_tc_getElem? _ tcm j hlen, h2]
  by_cases hn : RF.isNeg dx[j]
  · simp [hn, RF.lt]
  · simp [hn]

/-- C3 counterexample: the claim quantifies over scalar `dx` as well, but for
a scalar Python float `dx < 0` line 219 (`dx[idx_nan] = numpy.nan`) raises
`TypeError`, so an error IS raised for a negative scalar `dx`. -/
theorem gp_c3_counterexample :
    calculate_sigma gpc0 (-1) 1 1 dc0 0 0 0 none none =
      .error (.typeError "float object does not support item assignment") := by
  unfold calculate_sigma
  rw [if_pos (show (-1 : ℝ) < 0 from neg_one_lt_zero)]

/-- C3 (amended to array `dx`): every entry with `dx < 0` is replaced by NaN
before the sigma formulas run (and the matching `tc` entry of an array `tc`
is set to NaN as well, surviving the later clamp), entries with `dx >= 0`
are left unaffected by the masking stage, and the array path raises no
error (`calculate_sigma_array` is total). -/
theorem gp_c3_amended : ∀ (gpc : GPConstants) (dx tc : List RF) (z0 : ℝ)
    (dc : Fin 6 → Fin 4 → ℝ) (i : Fin 6) (tcm off : ℝ) (ca cb : Option ℝ)
    (j : ℕ) (hj : j < dx.length) (hj2 : j < tc.length),
    (RF.isNeg dx[j] →
      (calculate_sigma_array gpc dx z0 tc dc i tcm off ca cb).1[j]? = some .nan ∧
      (calculate_sigma_array gpc dx z0 tc dc i tcm off ca cb).2.1[j]? = some .nan) ∧
    (¬ RF.isNeg dx[j] →
      (calculate_sigma_array gpc dx z0 tc dc i tcm off ca cb).1[j]? = some dx[j] ∧
      (mask_tc dx tc)[j]? = some tc[j]) := by
  intro gpc dx tc z0 dc i tcm off ca cb j hj hj2
  constructor
  · intro hneg
    refine ⟨?_, ?_⟩
    · show (mask_dx dx)[j]? = some RF.nan
      rw [mask_dx_getElem? dx j hj, if_pos hneg]
    · show (clamp_tc (mask_tc dx tc) tcm)[j]? = some RF.nan
      rw [tc_out_getElem? dx tc tcm j hj hj2, if_pos hneg]
  · intro hpos
    refine ⟨?_, ?_⟩
    · show (mask_dx dx)[j]? = some dx[j]
      rw [mask_dx_getElem? dx j hj, if_neg hpos]
    · rw [mask_tc_getElem? dx tc j hj hj2, if_neg hpos]

/-- Witness for the amended C3 at a concrete negative entry. -/
theorem gp_c3_witness :
    (calculate_sigma_array gpc0 dxw 1 tcw dc0 0 0 0 none none).1[0]? = some RF.nan ∧
    (calculate_sigma_array gpc0 dxw 1 tcw dc0 0 0 0 none none).2.1[0]? = some RF.nan :=
  (gp_c3_amended gpc0 dxw tcw 1 dc0 0 0 0 none none 0 (by decide) (by decide)).1
    neg_one_lt_zero

/-- C9: the arrays a caller passes to `calculate_sigma` are modified, not
copied: after the call the caller's `dx` buffer holds NaN at every
originally negative position (hence differs from the value passed in), and
the caller's `tc` buffer holds NaN there and `tc_minimum` wherever it was
below the minimum (hence differs as well). -/
theorem gp_c9 : ∀ (gpc : GPConstants) (dx tc : List RF) (z0 : ℝ)
    (dc : Fin 6 → Fin 4 → ℝ) (i : Fin 6) (tcm off : ℝ) (ca cb : Option ℝ),
    (∀ (j : ℕ) (hj : j < dx.length), RF.isNeg dx[j] →
      (calculate_sigma_array gpc dx z0 tc dc i tcm off ca cb).1 ≠ dx ∧
      (calculate_sigma_array gpc dx z0 tc dc i tcm off ca cb).1[j]? = some .nan) ∧
    (∀ (j : ℕ) (hj : j < dx.length) (hj2 : j < tc.length), RF.isNeg dx[j] →
      (calculate_sigma_array gpc dx z0 tc dc i tcm off ca cb).2.1[j]? = some .nan) ∧
    (∀ (j : ℕ) (hj : j < dx.length) (hj2 : j < tc.length),
      ¬ RF.isNeg dx[j] → RF.lt tc[j] (.val tcm) →
      (calculate_sigma_array gpc dx z0 tc dc i tcm off ca cb).2.1[j]? = some (.val tcm) ∧
      (calculate_sigma_array gpc dx z0 tc dc i tcm off ca cb).2.1 ≠ tc) := by
  intro gpc dx tc z0 dc i tcm off ca cb
  refine ⟨?_, ?_, ?_⟩
  · intro j hj hneg
    have hval : (mask_dx dx)[j]? = some RF.nan := by
      rw [mask_dx_getElem? dx j hj, if_pos hneg]
    refine ⟨?_, hval⟩
    intro heq
    have heq1 : (mask_dx dx) = dx := heq
    rw [heq1, List.getElem?_eq_getElem hj] at hval
    have h2 := Option.some.inj hval
    rw [h2] at hneg
    exact hneg
  · intro j hj hj2 hneg
    show (clamp_tc (mask_tc dx tc) tcm)[j]? = some RF.nan
    rw [tc_out_getElem? dx tc tcm j hj hj2, if_pos hneg]
  · intro j hj hj2 hpos hlt
    have hval : (clamp_tc (mask_tc dx tc) tcm)[j]? = some (RF.val tcm) := by
      rw [tc_out_getElem? dx tc tcm j hj hj2, if_neg hpos, if_pos hlt]
    refine ⟨hval, ?_⟩
    intro heq
    have heq1 : (clamp_tc (mask_tc dx tc) tcm) = tc := heq
    rw [heq1, List.getElem?_eq_getElem hj2] at hval
    have h2 := Option.some.inj hval
    rw [h2] at hlt
    exact absurd hlt (lt_irrefl tcm)

/-- Witness for C9: the concrete call leaves the caller with changed arrays. -/
theorem gp_c9_witness :
    (calculate_sigma_array gpc0 dxw 1 tcw dc0 0 1 0 none none).1 ≠ dxw ∧
    (calculate_sigma_array gpc0 dxw 1 tcw dc0 0 1 0 none none).2.1 ≠ tcw :=
  ⟨((gp_c9 gpc0 dxw tcw 1 dc0 0 1 0 none none).1 0 (by decide) neg_one_lt_zero).1,
   ((gp_c9 gpc0 dxw tcw 1 dc0 0 1 0 none none).2.2 1 (by decide) (by decide)
      (not_lt.mpr zero_le_one) zero_lt_one).2⟩

/-- Round-trip of `Char.ofNat` on code points below the surrogate range. -/
theorem char_toNat_ofNat {n : ℕ} (h : n < 55296) : (Char.ofNat n).toNat = n := by
  rw [Char.ofNat, dif_pos (Or.inl h)]
  rfl

/-- Inversion for `Char.toUpper`: either the character was left alone or it
was a basic-latin lowercase letter shifted down by 32. -/
theorem char_toUpper_cases {c u : Char} (h : c.toUpper = u) :
    c = u ∨ (97 ≤ c.toNat ∧ c.toNat ≤ 122 ∧ c.toNat - 32 = u.toNat) := by
  simp only [Char.toUpper] at h
  by_cases hc : 97 ≤ c.toNat ∧ c.toNat ≤ 122
  · rw [if_pos hc] at h
    right
    have h2 := congrArg Char.toNat h
    rw [char_toNat_ofNat (by omega)] at h2
    exact ⟨hc.1, hc.2, h2⟩
  · rw [if_neg hc] at h
    exact Or.inl h

/-- A string whose upper-casing is a single character is itself a single
character that upper-cases to it. -/
theorem str_upper_single {s : String} {u : Char} (h : str_upper s = ⟨[u]⟩) :
    ∃ c, s = ⟨[c]⟩ ∧ c.toUpper = u := by
  obtain ⟨data⟩ := s
  have h2 : data.map Char.toUpper = [u] := congrArg String.data h
  cases data with
  | nil => simp at h2
  | cons c rest =>
    simp only [List.map_cons, List.cons.injEq] at h2
    obtain ⟨hc, hrest⟩ := h2
    have hr : rest = [] := by
      cases rest with
      | nil => rfl
      | cons _ _ => simp at hrest
    subst hr
    exact ⟨c, rfl, hc⟩

/-- A string that upper-cases to a single basic-latin uppercase letter is
that letter or its lowercase counterpart. -/
theorem str_eq_of_upper_single {s : String} {u : Char} (hu1 : 65 ≤ u.toNat)
    (hu2 : u.toNat ≤ 90) (h : str_upper s = ⟨[u]⟩) :
    s = ⟨[u]⟩ ∨ s = ⟨[Char.ofNat (u.toNat + 32)]⟩ := by
  obtain ⟨c, hs, hc⟩ := str_upper_single h
  rcases char_toUpper_cases hc with h1 | ⟨h2, h3, h4⟩
  · left
    rw [hs, h1]
  · right
    have h5 : c.toNat = u.toNat + 32 := by omega
    have h6 : c = Char.ofNat (u.toNat + 32) := by
      rw [← h5, Char.ofNat_toNat]
    rw [hs, h6]

/-- A string whose upper-casing matches one of the six class letters is one
of the twelve valid class inputs. -/
theorem mem_valid_of_upper {s : String} {i : ℕ} (hi : i < 6)
    (h : stability_classes.getD i "" = str_upper s) : s ∈ valid_class_letters := by
  interval_cases i <;>
    rcases str_eq_of_upper_single (by decide) (by decide) h.symm with h1 | h1 <;>
    rw [h1] <;> decide

/-- A string the matching loop assigns an index (other than `-1`) to is one
of the twelve valid class inputs. -/
theorem mem_valid_of_entry {s : String} (h : class_entry_index s ≠ -1) :
    s ∈ valid_class_letters := by
  unfold class_entry_index at h
  cases hfind : (List.range stability_classes.length).find?
      (fun i => decide (s = stability_classes.getD i "" ∨
        s = str_lower (stability_classes.getD i ""))) with
  | none => rw [hfind] at h; exact absurd rfl h
  | some i =>
    have hp := List.find?_some hfind
    have hmem := List.mem_of_find?_eq_some hfind
    rw [List.mem_range] at hmem
    rw [decide_eq_true_eq] at hp
    have hmem6 : i < 6 := hmem
    interval_cases i <;> (rcases hp with rfl | rfl) <;> decide

/-- An invalid scalar input leaves the `numpy.where` result empty. -/
theorem filter_eq_nil_of_invalid {s : String} (hs : s ∉ valid_class_letters) :
    (List.range stability_classes.length).filter
      (fun i => decide (stability_classes.getD i "" = str_upper s)) = [] := by
  rw [List.filter_eq_nil_iff]
  intro i hi
  rw [List.mem_range] at hi
  simp only [decide_eq_true_eq]
  intro heq
  exact hs (mem_valid_of_upper hi heq)

/-- The array branch of `stability_index2class` succeeds on in-range input. -/
theorem index2class_array_ok {l : List ℤ} (h : ∀ i ∈ l, 0 ≤ i ∧ i ≤ 5) :
    stability_index2class_array l =
      .ok (l.map (fun i => stability_classes.getD i.toNat "")) := by
  have hcond : ¬((l.any fun i => decide (i < 0)) = true ∨
      (l.any fun i => decide (i > 5)) = true) := by
    intro hcon
    rcases hcon with hx | hx
    · rw [List.any_eq_true] at hx
      obtain ⟨i, hi, hd⟩ := hx
      rw [decide_eq_true_eq] at hd
      have := h i hi
      omega
    · rw [List.any_eq_true] at hx
      obtain ⟨i, hi, hd⟩ := hx
      rw [decide_eq_true_eq] at hd
      have := h i hi
      omega
  unfold stability_index2class_array
  rw [if_neg hcond]

/-- The array branch of `stability_class2index` succeeds when the matching
loop leaves no `-1`. -/
theorem class2index_array_ok {l : List String} (h : ∀ s ∈ l, class_entry_index s ≠ -1) :
    stability_class2index_array l = .ok (l.map class_entry_index) := by
  have hcond : ¬((l.map class_entry_index).any fun i => decide (i = -1)) = true := by
    intro hcon
    rw [List.any_eq_true] at hcon
    obtain ⟨x, hx, hd⟩ := hcon
    rw [List.mem_map] at hx
    obtain ⟨s, hs, rfl⟩ := hx
    rw [decide_eq_true_eq] at hd
    exact h s hs hd
  unfold stability_class2index_array
  rw [if_neg hcond]

/-- The matching loop inverts indexing into the class table. -/
theorem class_entry_index_of_range {i : ℤ} (h0 : 0 ≤ i) (h5 : i ≤ 5) :
    class_entry_index (stability_classes.getD i.toNat "") = i := by
  interval_cases i <;> decide

/-- On a valid letter the matching loop returns an in-range index whose class
letter is the letter's upper case. -/
theorem class_entry_index_valid : ∀ s ∈ valid_class_letters,
    (0 ≤ class_entry_index s ∧ class_entry_index s ≤ 5) ∧
    stability_classes.getD (class_entry_index s).toNat "" = str_upper s := by decide

/-- C4: the index-to-class and class-to-index conversions invert each other:
round-tripping a valid index through the class letter returns the index
(the scalar class branch returns the length-1 `numpy.where` array), and
round-tripping a class letter in either case returns its upper-case form,
scalar and element-wise over arrays. -/
theorem gp_c4 :
    (∀ i : ℤ, 0 ≤ i → i ≤ 5 →
      ∃ c, stability_index2class i = .ok c ∧ stability_class2index c = .ok [i]) ∧
    (∀ c ∈ valid_class_letters,
      ∃ i : ℤ, stability_class2index c = .ok [i] ∧
        stability_index2class_array [i] = .ok [str_upper c]) ∧
    (∀ l : List ℤ, (∀ i ∈ l, 0 ≤ i ∧ i ≤ 5) →
      ∃ cs, stability_index2class_array l = .ok cs ∧
        stability_class2index_array cs = .ok l) ∧
    (∀ l : List String, (∀ s ∈ l, s ∈ valid_class_letters) →
      ∃ idx, stability_class2index_array l = .ok idx ∧
        stability_index2class_array idx = .ok (l.map str_upper)) := by
  refine ⟨?_, ?_, ?_, ?_⟩
  · intro i h0 h5
    interval_cases i
    · exact ⟨"A", by decide, by decide⟩
    · exact ⟨"B", by decide, by decide⟩
    · exact ⟨"C", by decide, by decide⟩
    · exact ⟨"D", by decide, by decide⟩
    · exact ⟨"E", by decide, by decide⟩
    · exact ⟨"F", by decide, by decide⟩
  · intro c hc
    refine ⟨class_entry_index c, ?_, ?_⟩ <;> (fin_cases hc <;> decide)
  · intro l hl
    refine ⟨l.map (fun i => stability_classes.getD i.toNat ""), index2class_array_ok hl, ?_⟩
    have hne : ∀ s ∈ l.map (fun i => stability_classes.getD i.toNat ""),
        class_entry_index s ≠ -1 := by
      intro s hs
      rw [List.mem_map] at hs
      obtain ⟨i, hi, rfl⟩ := hs
      obtain ⟨h0, h5⟩ := hl i hi
      rw [class_entry_index_of_range h0 h5]
      omega
    rw [class2index_array_ok hne, List.map_map]
    congr 1
    have hcg : ∀ i ∈ l, (class_entry_index ∘ fun i => stability_classes.getD i.toNat "") i
        = id i := by
      intro i hi
      obtain ⟨h0, h5⟩ := hl i hi
      simp only [Function.comp_apply, id_eq]
      exact class_entry_index_of_range h0 h5
    rw [List.map_congr_left hcg, List.map_id]
  · intro l hl
    have hne : ∀ s ∈ l, class_entry_index s ≠ -1 := by
      intro s hs
      have := (class_entry_index_valid s (hl s hs)).1
      omega
    refine ⟨l.map class_entry_index, class2index_array_ok hne, ?_⟩
    have hrange : ∀ i ∈ l.map class_entry_index, 0 ≤ i ∧ i ≤ 5 := by
      intro i hi
      rw [List.mem_map] at hi
      obtain ⟨s, hs, rfl⟩ := hi
      exact (class_entry_index_valid s (hl s hs)).1
    rw [index2class_array_ok hrange, List.map_map]
    congr 1
    apply List.map_congr_left
    intro s hs
    simp only [Function.comp_apply]
    exact (class_entry_index_valid s (hl s hs)).2

/-- Witness for C4 at concrete indices, letters and arrays. -/
theorem gp_c4_witness :
    (∃ c, stability_index2class 3 = .ok c ∧ stability_class2index c = .ok [3]) ∧
    (∃ i : ℤ, stability_class2index "d" = .ok [i] ∧
      stability_index2class_array [i] = .ok [str_upper "d"]) ∧
    (∃ cs, stability_index2class_array [0, 5] = .ok cs ∧
      stability_class2index_array cs = .ok [0, 5]) ∧
    (∃ idx, stability_class2index_array ["a", "F"] = .ok idx ∧
      stability_index2class_array idx = .ok (["a", "F"].map str_upper)) :=
  ⟨gp_c4.1 3 (by decide) (by decide),
   gp_c4.2.1 "d" (by decide),
   gp_c4.2.2.1 [0, 5] (by decide),
   gp_c4.2.2.2 ["a", "F"] (by decide)⟩

/-- C5: out-of-range indices raise `IndexError` in both the scalar and the
array branch of `stability_index2class`; invalid class strings raise
`ValueError` in both branches of `stability_class2index`, and for arrays
the message names each offending value (as a substring) when there are at
most 2 of them, otherwise it reports only their count. -/
theorem gp_c5 :
    (∀ i : ℤ, i < 0 ∨ 5 < i →
      stability_index2class i = .error (.indexError ("stability_index is " ++
        toString i ++ ", which is out of range, it has to be 0, 1, 2, 3, 4, or 5."))) ∧
    (∀ l : List ℤ, (∃ i ∈ l, i < 0 ∨ 5 < i) →
      stability_index2class_array l = .error (.indexError
        "stability_index is out of range, it has to be 0, 1, 2, 3, 4, or 5.")) ∧
    (∀ s : String, s ∉ valid_class_letters →
      stability_class2index s =
        .error (.valueError ("stability_class " ++ s ++ " does not exist"))) ∧
    (∀ l : List String, (∃ s ∈ l, s ∉ valid_class_letters) →
      ∃ m, stability_class2index_array l = .error (.valueError m) ∧
        ((invalid_entries l).length ≤ 2 →
          m = (invalid_entries l).foldl (fun acc v => acc ++ " " ++ v)
            "Invalid inputs for stability_class:" ∧
          ∀ v ∈ invalid_entries l, List.IsInfix v.data m.data) ∧
        (3 ≤ (invalid_entries l).length →
          m = toString (invalid_entries l).length ++ " invalid inputs for stability_class")) := by
  refine ⟨?_, ?_, ?_, ?_⟩
  · intro i hi
    unfold stability_index2class
    rw [if_neg (by omega)]
  · intro l hex
    obtain ⟨i, hi, hcase⟩ := hex
    unfold stability_index2class_array
    rw [if_pos]
    rcases hcase with hc | hc
    · exact Or.inl (List.any_eq_true.mpr ⟨i, hi, by rw [decide_eq_true_eq]; exact hc⟩)
    · exact Or.inr (List.any_eq_true.mpr ⟨i, hi, by rw [decide_eq_true_eq]; exact hc⟩)
  · intro s hs
    unfold stability_class2index
    rw [filter_eq_nil_of_invalid hs]
    rfl
  · intro l hex
    obtain ⟨s, hs, hsv⟩ := hex
    have hsentry : class_entry_index s = -1 := by
      by_contra h
      exact hsv (mem_valid_of_entry h)
    have hmem_inv : s ∈ invalid_entries l := by
      unfold invalid_entries
      rw [List.mem_filter]
      exact ⟨hs, by rw [decide_eq_true_eq]; exact hsentry⟩
    have herr : stability_class2index_array l =
        .error (.valueError (class2index_invalid_message (invalid_entries l))) := by
      unfold stability_class2index_array
      rw [if_pos]
      rw [List.any_eq_true]
      refine ⟨class_entry_index s, ?_, ?_⟩
      · rw [List.mem_map]
        exact ⟨s, hs, rfl⟩
      · rw [decide_eq_true_eq]
        exact hsentry
    refine ⟨_, herr, ?_, ?_⟩
    · intro hlen
      refine ⟨?_, ?_⟩
      · unfold class2index_invalid_message
        rw [if_pos (by omega)]
      · intro v hv
        have hne : invalid_entries l ≠ [] := by
          intro h0
          rw [h0] at hmem_inv
          exact absurd hmem_inv (List.not_mem_nil s)
        unfold class2index_invalid_message
        rw [if_pos (by omega)]
        rcases hI : invalid_entries l with _ | ⟨a, _ | ⟨b, rest⟩⟩
        · exact absurd hI hne
        · rw [hI] at hv
          rw [List.mem_singleton] at hv
          subst hv
          simp only [List.foldl_cons, List.foldl_nil]
          exact ⟨("Invalid inputs for stability_class:" ++ " ").data, [],
            by simp [String.data_append]⟩
        · have hrest : rest = [] := by
            rw [hI] at hlen
            cases rest with
            | nil => rfl
            | cons x xs => simp at hlen
          subst hrest
          rw [hI] at hv
          simp only [List.foldl_cons, List.foldl_nil]
          rcases List.mem_pair.mp hv with hv1 | hv1 <;> subst hv1
          · exact ⟨("Invalid inputs for stability_class:" ++ " ").data, (" " ++ b).data,
              by simp [String.data_append]⟩
          · exact ⟨("Invalid inputs for stability_class:" ++ " " ++ a ++ " ").data, [],
              by simp [String.data_append]⟩
    · intro hlen
      unfold class2index_invalid_message
      rw [if_neg (by omega)]

/-- Witness for C5 at concrete invalid inputs. -/
theorem gp_c5_witness :
    (stability_index2class (-3) = .error (.indexError ("stability_index is " ++
      toString (-3 : ℤ) ++ ", which is out of range, it has to be 0, 1, 2, 3, 4, or 5."))) ∧
    (stability_index2class_array [2, 9] = .error (.indexError
      "stability_index is out of range, it has to be 0, 1, 2, 3, 4, or 5.")) ∧
    (stability_class2index "G" =
      .error (.valueError ("stability_class " ++ "G" ++ " does not exist"))) ∧
    (∃ m, stability_class2index_array ["a", "G"] = .error (.valueError m) ∧
      ((invalid_entries ["a", "G"]).length ≤ 2 →
        m = (invalid_entries ["a", "G"]).foldl (fun acc v => acc ++ " " ++ v)
          "Invalid inputs for stability_class:" ∧
        ∀ v ∈ invalid_entries ["a", "G"], List.IsInfix v.data m.data) ∧
      (3 ≤ (invalid_entries ["a", "G"]).length →
        m = toString (invalid_entries ["a", "G"]).length ++
          " invalid inputs for stability_class")) :=
  ⟨gp_c5.1 (-3) (Or.inl (by decide)),
   gp_c5.2.1 [2, 9] ⟨9, by decide, Or.inr (by decide)⟩,
   gp_c5.2.2.1 "G" (by decide),
   gp_c5.2.2.2 ["a", "G"] ⟨"G", by decide, by decide⟩⟩

end GaussianPlume
